import Mathlib

/-!
# Ironlink ESP32 configuration headers

A verification development for `src/hardware/esp32/config/secrets.example.h`
and `src/hardware/esp32/config/secrets.h`. The two headers are embedded as
their source text, line by line, and read by a small model of the C
preprocessor; every property below is a statement about what that model
computes from the text.
-/

set_option maxRecDepth 100000

namespace Ironlink

/-! ## The two headers -/

/-- A comment line that rules off a section of a header: `// ` followed by
`n` copies of the character `c`. -/
def ruleLine (c : Char) (n : Nat) : String :=
  "// " ++ String.mk (List.replicate n c)

/-- Text of `src/hardware/esp32/config/secrets.example.h`, one string per source
line (the file ends with one empty line). -/
def secrets_example_h : List String := [
  "#ifndef IRONLINK_SECRETS_H",
  "#define IRONLINK_SECRETS_H",
  "",
  ruleLine '=' 78,
  "// Ironlink IoT Platform",
  "// ESP32 Sensor Node – Secrets & Environment Configuration",
  "//",
  "// HOW TO USE:",
  "// 1. Copy this file:",
  "//      cp secrets.example.h secrets.h",
  "// 2. Edit secrets.h with real values",
  "// 3. Flash the ESP32",
  "//",
  "// This file is SAFE to commit.",
  "// Do NOT commit secrets.h (real credentials).",
  ruleLine '=' 78,
  "",
  "",
  ruleLine '-' 78,
  "// WIFI CONFIGURATION",
  ruleLine '-' 78,
  "",
  "// WiFi SSID",
  "#define WIFI_SSID \"CHANGE_ME_WIFI_SSID\"",
  "",
  "// WiFi password",
  "#define WIFI_PASSWORD \"CHANGE_ME_WIFI_PASSWORD\"",
  "",
  "",
  ruleLine '-' 78,
  "// MQTT CONFIGURATION",
  ruleLine '-' 78,
  "",
  "// MQTT broker hostname or IP",
  "// Examples:",
  "//   \"iot-gateway.local\"",
  "//   \"192.168.0.50\"",
  "#define MQTT_BROKER \"iot-gateway.local\"",
  "",
  "// MQTT broker port",
  "// 1883 = no TLS (PoC)",
  "// 8883 = TLS (production)",
  "#define MQTT_PORT 1883",
  "",
  "// Optional MQTT authentication",
  "// Leave empty (\"\") if not required",
  "#define MQTT_USERNAME \"\"",
  "#define MQTT_PASSWORD \"\"",
  "",
  "",
  ruleLine '-' 78,
  "// DEVICE IDENTITY",
  ruleLine '-' 78,
  "",
  "// Logical device ID (used in topics, logs, or payloads)",
  "// Examples:",
  "//   \"esp32-001\"",
  "//   \"SITE-A-ENV-01\"",
  "#define DEVICE_ID \"esp32-001\"",
  "",
  "",
  ruleLine '-' 78,
  "// MQTT TOPICS",
  ruleLine '-' 78,
  "",
  "// Telemetry publish topic (PoC format)",
  "// Example:",
  "//   ironlink/env/HOME/esp32/dht11",
  "#define MQTT_TELEMETRY_TOPIC \"ironlink/env/HOME/esp32/dht11\"",
  "",
  "// Planned scalable format (for reference only):",
  "//   ironlink/{tenant}/{site}/{device}/telemetry",
  "//",
  "// This should be updated when moving to multi-tenant deployments.",
  "",
  "",
  ruleLine '-' 78,
  "// TELEMETRY SETTINGS",
  ruleLine '-' 78,
  "",
  "// Publish interval in milliseconds",
  "// Example:",
  "//   5000  = every 5 seconds",
  "//   10000 = every 10 seconds",
  "#define PUBLISH_INTERVAL_MS 5000",
  "",
  "",
  ruleLine '-' 78,
  "// NOTES",
  ruleLine '-' 78,
  "//",
  "// - Keep this file generic and reusable.",
  "// - All site/client-specific values go into secrets.h.",
  "// - Firmware logic must never depend on hard-coded credentials.",
  "//",
  ruleLine '-' 78,
  "",
  "#endif // IRONLINK_SECRETS_H",
  ""
]

/-- Text of `src/hardware/esp32/config/secrets.h`, one string per source line. -/
def secrets_h : List String := [
  "#ifndef IRONLINK_SECRETS_H",
  "#define IRONLINK_SECRETS_H",
  "",
  ruleLine '=' 78,
  "// Ironlink IoT Platform",
  "// ESP32 Sensor Node – Runtime Secrets (LOCAL ONLY)",
  "//",
  "// ⚠️ DO NOT COMMIT THIS FILE ⚠️",
  "// This file contains real credentials and site-specific configuration.",
  "// It must be listed in .gitignore.",
  "//",
  "// This file is loaded by the ESP32 firmware at compile time.",
  ruleLine '=' 78,
  "",
  "",
  ruleLine '-' 78,
  "// WIFI CONFIGURATION (CHANGE PER SITE)",
  ruleLine '-' 78,
  "",
  "// WiFi SSID at the deployment site",
  "#define WIFI_SSID \"SITE_WIFI_NAME\"",
  "",
  "// WiFi password",
  "#define WIFI_PASSWORD \"SITE_WIFI_PASSWORD\"",
  "",
  "",
  ruleLine '-' 78,
  "// MQTT CONFIGURATION (CHANGE PER GATEWAY / ENVIRONMENT)",
  ruleLine '-' 78,
  "",
  "// MQTT broker hostname or IP address",
  "// Examples:",
  "//   \"iot-gateway.local\"",
  "//   \"192.168.0.50\"",
  "#define MQTT_BROKER \"192.168.0.50\"",
  "",
  "// MQTT broker port",
  "// 1883 = no TLS (PoC / local LAN)",
  "// 8883 = TLS (production)",
  "#define MQTT_PORT 1883",
  "",
  "// Optional MQTT authentication",
  "// Leave empty (\"\") if broker does not require auth",
  "#define MQTT_USERNAME \"\"",
  "#define MQTT_PASSWORD \"\"",
  "",
  "",
  ruleLine '-' 78,
  "// DEVICE IDENTITY (CHANGE PER ESP32)",
  ruleLine '-' 78,
  "",
  "// Unique logical identifier for this ESP32",
  "// Use a label that matches dashboards and provisioning records",
  "// Examples:",
  "//   \"esp32-001\"",
  "//   \"SITE-A-ENV-01\"",
  "#define DEVICE_ID \"SITE-A-ENV-01\"",
  "",
  "",
  ruleLine '-' 78,
  "// MQTT TOPICS (CHANGE PER SITE / DEVICE)",
  ruleLine '-' 78,
  "",
  "// Telemetry publish topic",
  "// Current PoC format:",
  "#define MQTT_TELEMETRY_TOPIC \"ironlink/env/HOME/esp32/dht11\"",
  "",
  "// Planned scalable format (future):",
  "// ironlink/{tenant}/{site}/{device}/telemetry",
  "// Example:",
  "// ironlink/clientA/siteA/SITE-A-ENV-01/telemetry",
  "",
  "",
  ruleLine '-' 78,
  "// TELEMETRY SETTINGS",
  ruleLine '-' 78,
  "",
  "// Publish interval in milliseconds",
  "// 5000  = every 5 seconds",
  "// 10000 = every 10 seconds",
  "#define PUBLISH_INTERVAL_MS 5000",
  "",
  "",
  ruleLine '-' 78,
  "// NOTES",
  ruleLine '-' 78,
  "//",
  "// - Each ESP32 MUST have a unique DEVICE_ID.",
  "// - Do not reuse topics across physical devices.",
  "// - Keep credentials out of firmware (.ino) files.",
  "// - For production, this file will also include TLS certs.",
  "//",
  ruleLine '-' 78,
  "",
  "#endif // IRONLINK_SECRETS_H"
]

/-! ## A line-level model of the C preprocessor

Only what the two headers use is modelled: the directives `#ifndef`,
`#define` (object-like, no parameters) and `#endif`, `//` comments, and
string and decimal integer literals as replacement text. Line splicing
(a backslash before the newline) and block comments are not modelled;
`withinModel` checks that a header uses neither. -/

/-- Whether `/` directly followed by `*` occurs in the text. -/
def hasBlockComment : List Char → Bool
  | [] => false
  | [_] => false
  | c :: d :: cs => (c = '/' && d = '*') || hasBlockComment (d :: cs)

/-- A header none of whose lines holds a backslash or opens a block comment. -/
def withinModel (h : List String) : Bool :=
  h.all (fun l => !l.data.contains '\\' && !hasBlockComment l.data)

/-- One logical source line, as the preprocessor sees it. -/
inductive Line where
  | ifndef (name : String)
  | define (name : String) (body : String)
  | endif
  | directive (name : String)
  | text
  deriving DecidableEq

/-- The value a replacement text denotes when it is a single literal. -/
inductive Value where
  | int (n : Nat)
  | str (s : String)
  | other (raw : String)
  deriving DecidableEq

/-- The two literal types of the data model. -/
inductive Ty where
  | integer
  | text
  deriving DecidableEq

def isBlank (c : Char) : Bool := c = ' ' || c = '\t'

def isIdentChar (c : Char) : Bool := c.isAlphanum || c = '_'

def dropBlanks : List Char → List Char
  | [] => []
  | c :: cs => if isBlank c then dropBlanks cs else c :: cs

/-- Drop trailing blanks. -/
def trimRight (cs : List Char) : List Char :=
  (dropBlanks cs.reverse).reverse

/-- Longest identifier prefix of the input and what follows it. -/
def takeIdent : List Char → List Char × List Char
  | [] => ([], [])
  | c :: cs =>
    if isIdentChar c then
      let r := takeIdent cs
      (c :: r.1, r.2)
    else ([], c :: cs)

/-- Remove a `//` comment; the flag says whether the scan is inside a
string literal, where `//` is ordinary text. -/
def stripComment : Bool → List Char → List Char
  | _, [] => []
  | _, [c] => [c]
  | inStr, c :: d :: cs =>
    if inStr then
      if c = '\\' then c :: d :: stripComment true cs
      else if c = '"' then c :: stripComment false (d :: cs)
      else c :: stripComment true (d :: cs)
    else
      if c = '/' && d = '/' then []
      else if c = '"' then c :: stripComment true (d :: cs)
      else c :: stripComment false (d :: cs)

/-- Classify one source line. A directive is a line whose first non-blank
character is `#`. -/
def parseLine (s : String) : Line :=
  match dropBlanks s.data with
  | '#' :: rest =>
    let kw := takeIdent (dropBlanks rest)
    let arg := takeIdent (dropBlanks kw.2)
    if kw.1 = "ifndef".data then Line.ifndef (String.mk arg.1)
    else if kw.1 = "define".data then
      Line.define (String.mk arg.1)
        (String.mk (trimRight (stripComment false (dropBlanks arg.2))))
    else if kw.1 = "endif".data then Line.endif
    else Line.directive (String.mk kw.1)
  | _ => Line.text

def parse (h : List String) : List Line := h.map parseLine

def Line.isDirective : Line → Bool
  | Line.text => false
  | _ => true

/-- The directive lines of a header, in order. -/
def directives (h : List String) : List Line :=
  (parse h).filter Line.isDirective

/-- Every `#define` of a header as (name, replacement text), in order,
regardless of conditional context. -/
def definesOf : List Line → List (String × String)
  | [] => []
  | Line.define n b :: ls => (n, b) :: definesOf ls
  | _ :: ls => definesOf ls

/-- The macro tested by the first `#ifndef` of the header. -/
def guardName : List Line → Option String
  | [] => none
  | Line.ifndef n :: _ => some n
  | _ :: ls => guardName ls

/-- The `#define`s of a header other than that of its include guard. -/
def constants (h : List String) : List (String × String) :=
  (definesOf (parse h)).filter (fun d => decide (some d.1 ≠ guardName (parse h)))

def definedNames (h : List String) : List String :=
  (definesOf (parse h)).map Prod.fst

def constantNames (h : List String) : List String :=
  (constants h).map Prod.fst

def digitsToNat (cs : List Char) : Nat :=
  cs.foldl (fun acc c => 10 * acc + (c.toNat - '0'.toNat)) 0

/-- Read a replacement text as a literal: a decimal integer constant
(non-zero first digit) or a string literal without escapes. -/
def parseValue (body : String) : Value :=
  match body.data with
  | [] => Value.other body
  | c :: cs =>
    if c = '"' then
      match cs.reverse with
      | q :: rs =>
        if q = '"' ∧ rs.all (fun x => x ≠ '"' && x ≠ '\\')
        then Value.str (String.mk rs.reverse)
        else Value.other body
      | [] => Value.other body
    else if c.isDigit ∧ c ≠ '0' ∧ cs.all Char.isDigit then
      Value.int (digitsToNat (c :: cs))
    else Value.other body

def Value.ty : Value → Option Ty
  | Value.int _ => some Ty.integer
  | Value.str _ => some Ty.text
  | Value.other _ => none

/-- The replacement text of the (first) definition of a constant. -/
def bodyOf (h : List String) (name : String) : Option String :=
  ((constants h).find? (fun d => d.1 = name)).map Prod.snd

def valueOf (h : List String) (name : String) : Option Value :=
  (bodyOf h name).map parseValue

def typeOf (h : List String) (name : String) : Option Ty :=
  (valueOf h name).bind Value.ty

def intOf (h : List String) (name : String) : Option Nat :=
  match valueOf h name with
  | some (Value.int n) => some n
  | _ => none

def strOf (h : List String) (name : String) : Option String :=
  match valueOf h name with
  | some (Value.str s) => some s
  | _ => none

/-- The nine configuration symbols of the file contract. -/
def configSymbols : List String :=
  ["WIFI_SSID", "WIFI_PASSWORD", "MQTT_BROKER", "MQTT_PORT", "MQTT_USERNAME",
   "MQTT_PASSWORD", "DEVICE_ID", "MQTT_TELEMETRY_TOPIC", "PUBLISH_INTERVAL_MS"]

/-- The name both headers use for their include guard. -/
def guardSymbol : String := "IRONLINK_SECRETS_H"

def headers : List (List String) := [secrets_example_h, secrets_h]

/-! ## Topic format -/

/-- Split at every occurrence of the separator; the result is never empty. -/
def splitOn (sep : Char) : List Char → List (List Char)
  | [] => [[]]
  | c :: cs =>
    if c = sep then [] :: splitOn sep cs
    else
      match splitOn sep cs with
      | seg :: segs => (c :: seg) :: segs
      | [] => [[c]]

/-- The `/`-separated levels of a topic string. -/
def segments (topic : String) : List String :=
  (splitOn '/' topic.data).map String.mk

/-! ## Fill-in markers -/

/-- Whether the conditional opened at nesting depth `d` is closed by the
very last directive of the list. -/
def closesAtEnd : Nat → List Line → Bool
  | _, [] => false
  | d, Line.ifndef _ :: ls => closesAtEnd (d + 1) ls
  | d, Line.endif :: ls => if d ≤ 1 then ls.isEmpty else closesAtEnd (d - 1) ls
  | d, _ :: ls => closesAtEnd d ls

/-- The include guard of a header: the macro `G` such that the first
directive is `#ifndef G`, the second is `#define G` with empty replacement
text, and the matching `#endif` is the last directive of the file. -/
def includeGuard (h : List String) : Option String :=
  match directives h with
  | Line.ifndef g :: Line.define g2 body :: rest =>
    if g = g2 ∧ body = "" ∧ closesAtEnd 1 rest = true then some g else none
  | _ => none

/-- Every `#define` of a header together with the macros tested by the
`#ifndef`s that are open at it, innermost first. -/
def definesWithContext : List String → List Line → List (String × List String)
  | _, [] => []
  | ctx, Line.ifndef n :: ls => definesWithContext (n :: ctx) ls
  | ctx, Line.endif :: ls => definesWithContext ctx.tail ls
  | ctx, Line.define n _ :: ls => (n, ctx) :: definesWithContext ctx ls
  | ctx, _ :: ls => definesWithContext ctx ls

/-! ## Preprocessing as an environment transformer -/

/-- A macro environment: every definition performed so far, oldest first. -/
abbrev Env := List (String × String)

def defined (name : String) (env : Env) : Bool :=
  env.any (fun d => d.1 == name)

/-- All definitions of one macro in an environment. -/
def definitionsOf (name : String) (env : Env) : Env :=
  env.filter (fun d => d.1 == name)

/-- Preprocessor state: the environment and, for each open conditional
(innermost first), whether its group is being processed. -/
structure PPState where
  env : Env
  conds : List Bool

def PPState.active (st : PPState) : Bool := st.conds.all id

def step (st : PPState) : Line → PPState
  | Line.ifndef n => ⟨st.env, (st.active && !defined n st.env) :: st.conds⟩
  | Line.endif => ⟨st.env, st.conds.tail⟩
  | Line.define n b => if st.active then ⟨st.env ++ [(n, b)], st.conds⟩ else st
  | Line.directive _ => st
  | Line.text => st

/-- Process a header in an environment (the effect of `#include`). -/
def preprocess (h : List String) (env : Env) : Env :=
  ((parse h).foldl step ⟨env, []⟩).env


/-! ## Reading the headers -/

/-- Both headers stay inside what the preprocessor model covers. -/
theorem headers_withinModel : ∀ h ∈ headers, withinModel h = true := by
  decide

theorem constantNames_example : constantNames secrets_example_h = configSymbols := by
  decide

theorem constantNames_real : constantNames secrets_h = configSymbols := by
  decide

theorem any_some {α : Type} (o : Option α) (p : α → Bool) (h : o.any p = true) :
    ∃ a, o = some a ∧ p a = true := by
  cases o with
  | none => simp at h
  | some a => exact ⟨a, rfl, by simpa using h⟩

/-- C1: a name is defined as a constant by `secrets.example.h` (the include
guard set aside) exactly when it is defined as a constant by `secrets.h`. -/
theorem symbol_parity (n : String) :
    n ∈ constantNames secrets_example_h ↔ n ∈ constantNames secrets_h := by
  rw [constantNames_example, constantNames_real]

/-- C2: each header defines every one of the nine configuration symbols,
defines nothing but these and the include guard, has nine constants, and
defines no name twice. -/
theorem defines_exactly_the_nine :
    ∀ h ∈ headers,
      (∀ n ∈ configSymbols, n ∈ definedNames h) ∧
      (∀ n ∈ definedNames h, n = guardSymbol ∨ n ∈ configSymbols) ∧
      (∀ n ∈ constantNames h, n ∈ configSymbols) ∧
      (constantNames h).length = 9 ∧
      (definedNames h).Nodup := by
  decide

theorem defines_exactly_the_nine_witness :
    (∀ n ∈ configSymbols, n ∈ definedNames secrets_h) ∧
    (∀ n ∈ definedNames secrets_h, n = guardSymbol ∨ n ∈ configSymbols) ∧
    (∀ n ∈ constantNames secrets_h, n ∈ configSymbols) ∧
    (constantNames secrets_h).length = 9 ∧
    (definedNames secrets_h).Nodup :=
  defines_exactly_the_nine secrets_h (by decide)

/-- C3: for each of the nine names the value in `secrets.example.h` and the
value in `secrets.h` have the same literal type, integer for `MQTT_PORT` and
`PUBLISH_INTERVAL_MS` and string for the other seven. -/
theorem type_parity :
    ∀ n ∈ configSymbols,
      typeOf secrets_example_h n = typeOf secrets_h n ∧
      typeOf secrets_h n =
        some (if n = "MQTT_PORT" ∨ n = "PUBLISH_INTERVAL_MS" then Ty.integer else Ty.text) := by
  decide

theorem type_parity_witness :
    typeOf secrets_example_h "MQTT_BROKER" = typeOf secrets_h "MQTT_BROKER" ∧
    typeOf secrets_h "MQTT_BROKER" = some Ty.text :=
  type_parity "MQTT_BROKER" (by decide)

/-- C4: in both headers `MQTT_PORT` is the integer 1883 or the integer 8883. -/
theorem mqtt_port_conventional :
    ∀ h ∈ headers, intOf h "MQTT_PORT" = some 1883 ∨ intOf h "MQTT_PORT" = some 8883 := by
  decide

theorem mqtt_port_conventional_witness :
    intOf secrets_h "MQTT_PORT" = some 1883 ∨ intOf secrets_h "MQTT_PORT" = some 8883 :=
  mqtt_port_conventional secrets_h (by decide)

/-- C5: in both headers `PUBLISH_INTERVAL_MS` is an integer literal whose
value is strictly greater than zero. -/
theorem publish_interval_positive :
    ∀ h ∈ headers, ∃ v, intOf h "PUBLISH_INTERVAL_MS" = some v ∧ 0 < v := by
  have key : ∀ h ∈ headers,
      (intOf h "PUBLISH_INTERVAL_MS").any (fun v => decide (0 < v)) = true := by decide
  intro h hh
  obtain ⟨v, hv, hp⟩ := any_some _ _ (key h hh)
  exact ⟨v, hv, by simpa using hp⟩

theorem publish_interval_positive_witness :
    ∃ v, intOf secrets_example_h "PUBLISH_INTERVAL_MS" = some v ∧ 0 < v :=
  publish_interval_positive secrets_example_h (by decide)

/-- C6: in both headers `DEVICE_ID`, `MQTT_TELEMETRY_TOPIC`, `WIFI_SSID` and
`WIFI_PASSWORD` are string literals of length at least one, and a constant
whose value is the empty string is `MQTT_USERNAME` or `MQTT_PASSWORD`. -/
theorem required_text_nonempty :
    ∀ h ∈ headers,
      (∀ n ∈ ["DEVICE_ID", "MQTT_TELEMETRY_TOPIC", "WIFI_SSID", "WIFI_PASSWORD"],
        ∃ s, strOf h n = some s ∧ 1 ≤ s.length) ∧
      (∀ n ∈ constantNames h, strOf h n = some "" →
        n = "MQTT_USERNAME" ∨ n = "MQTT_PASSWORD") := by
  have key : ∀ h ∈ headers,
      ∀ n ∈ ["DEVICE_ID", "MQTT_TELEMETRY_TOPIC", "WIFI_SSID", "WIFI_PASSWORD"],
        (strOf h n).any (fun s => decide (1 ≤ s.length)) = true := by decide
  have rest : ∀ h ∈ headers, ∀ n ∈ constantNames h, strOf h n = some "" →
      n = "MQTT_USERNAME" ∨ n = "MQTT_PASSWORD" := by decide
  intro h hh
  refine ⟨fun n hn => ?_, rest h hh⟩
  obtain ⟨s, hs, hp⟩ := any_some _ _ (key h hh n hn)
  exact ⟨s, hs, by simpa using hp⟩

theorem required_text_nonempty_witness :
    (∀ n ∈ ["DEVICE_ID", "MQTT_TELEMETRY_TOPIC", "WIFI_SSID", "WIFI_PASSWORD"],
      ∃ s, strOf secrets_h n = some s ∧ 1 ≤ s.length) ∧
    (∀ n ∈ constantNames secrets_h, strOf secrets_h n = some "" →
      n = "MQTT_USERNAME" ∨ n = "MQTT_PASSWORD") :=
  required_text_nonempty secrets_h (by decide)

/-- C7: in both headers `MQTT_TELEMETRY_TOPIC` is a string that splits on `/`
into exactly the five segments `ironlink`, `env`, a site, `esp32`, a sensor,
with the site and the sensor non-empty. -/
theorem telemetry_topic_format :
    ∀ h ∈ headers, ∃ topic site sensor,
      strOf h "MQTT_TELEMETRY_TOPIC" = some topic ∧
      segments topic = ["ironlink", "env", site, "esp32", sensor] ∧
      site ≠ "" ∧ sensor ≠ "" := by
  have key : ∀ h ∈ headers,
      strOf h "MQTT_TELEMETRY_TOPIC" = some "ironlink/env/HOME/esp32/dht11" := by decide
  intro h hh
  exact ⟨_, "HOME", "dht11", key h hh, by decide, by decide, by decide⟩

theorem telemetry_topic_format_witness :
    ∃ topic site sensor,
      strOf secrets_h "MQTT_TELEMETRY_TOPIC" = some topic ∧
      segments topic = ["ironlink", "env", site, "esp32", sensor] ∧
      site ≠ "" ∧ sensor ≠ "" :=
  telemetry_topic_format secrets_h (by decide)


/-! ## Include guard and inclusion -/

theorem directives_example :
    directives secrets_example_h =
      [ Line.ifndef "IRONLINK_SECRETS_H",
       Line.define "IRONLINK_SECRETS_H" "",
       Line.define "WIFI_SSID" "\"CHANGE_ME_WIFI_SSID\"",
       Line.define "WIFI_PASSWORD" "\"CHANGE_ME_WIFI_PASSWORD\"",
       Line.define "MQTT_BROKER" "\"iot-gateway.local\"",
       Line.define "MQTT_PORT" "1883",
       Line.define "MQTT_USERNAME" "\"\"",
       Line.define "MQTT_PASSWORD" "\"\"",
       Line.define "DEVICE_ID" "\"esp32-001\"",
       Line.define "MQTT_TELEMETRY_TOPIC" "\"ironlink/env/HOME/esp32/dht11\"",
       Line.define "PUBLISH_INTERVAL_MS" "5000",
       Line.endif] := by
  decide

theorem directives_real :
    directives secrets_h =
      [ Line.ifndef "IRONLINK_SECRETS_H",
       Line.define "IRONLINK_SECRETS_H" "",
       Line.define "WIFI_SSID" "\"SITE_WIFI_NAME\"",
       Line.define "WIFI_PASSWORD" "\"SITE_WIFI_PASSWORD\"",
       Line.define "MQTT_BROKER" "\"192.168.0.50\"",
       Line.define "MQTT_PORT" "1883",
       Line.define "MQTT_USERNAME" "\"\"",
       Line.define "MQTT_PASSWORD" "\"\"",
       Line.define "DEVICE_ID" "\"SITE-A-ENV-01\"",
       Line.define "MQTT_TELEMETRY_TOPIC" "\"ironlink/env/HOME/esp32/dht11\"",
       Line.define "PUBLISH_INTERVAL_MS" "5000",
       Line.endif] := by
  decide

theorem definesOf_example :
    definesOf (parse secrets_example_h) =
      [("IRONLINK_SECRETS_H", ""),
       ("WIFI_SSID", "\"CHANGE_ME_WIFI_SSID\""),
       ("WIFI_PASSWORD", "\"CHANGE_ME_WIFI_PASSWORD\""),
       ("MQTT_BROKER", "\"iot-gateway.local\""),
       ("MQTT_PORT", "1883"),
       ("MQTT_USERNAME", "\"\""),
       ("MQTT_PASSWORD", "\"\""),
       ("DEVICE_ID", "\"esp32-001\""),
       ("MQTT_TELEMETRY_TOPIC", "\"ironlink/env/HOME/esp32/dht11\""),
       ("PUBLISH_INTERVAL_MS", "5000")] := by
  decide

theorem definesOf_real :
    definesOf (parse secrets_h) =
      [("IRONLINK_SECRETS_H", ""),
       ("WIFI_SSID", "\"SITE_WIFI_NAME\""),
       ("WIFI_PASSWORD", "\"SITE_WIFI_PASSWORD\""),
       ("MQTT_BROKER", "\"192.168.0.50\""),
       ("MQTT_PORT", "1883"),
       ("MQTT_USERNAME", "\"\""),
       ("MQTT_PASSWORD", "\"\""),
       ("DEVICE_ID", "\"SITE-A-ENV-01\""),
       ("MQTT_TELEMETRY_TOPIC", "\"ironlink/env/HOME/esp32/dht11\""),
       ("PUBLISH_INTERVAL_MS", "5000")] := by
  decide

/-- Lines that are not directives leave the preprocessor state alone. -/
theorem foldl_step_filter (ls : List Line) (st : PPState) :
    (ls.filter Line.isDirective).foldl step st = ls.foldl step st := by
  induction ls generalizing st with
  | nil => rfl
  | cons l ls ih =>
    cases l <;> simp [List.filter, Line.isDirective, step, ih]

theorem preprocess_eq_directives (h : List String) (env : Env) :
    preprocess h env = ((directives h).foldl step ⟨env, []⟩).env := by
  unfold preprocess directives
  rw [foldl_step_filter]

/-- With the guard already defined, either header is skipped whole. -/
theorem preprocess_guarded (h : List String) (hh : h ∈ headers) (env : Env)
    (hg : defined guardSymbol env = true) : preprocess h env = env := by
  have hg2 : defined "IRONLINK_SECRETS_H" env = true := hg
  simp only [headers, List.mem_cons, List.mem_singleton, List.not_mem_nil, or_false] at hh
  rcases hh with rfl | rfl
  · rw [preprocess_eq_directives, directives_example]
    simp [step, PPState.active, hg2]
  · rw [preprocess_eq_directives, directives_real]
    simp [step, PPState.active, hg2]

/-- With the guard not yet defined, a header appends all its definitions. -/
theorem preprocess_fresh (h : List String) (hh : h ∈ headers) (env : Env)
    (hg : defined guardSymbol env = false) :
    preprocess h env = env ++ definesOf (parse h) := by
  have hg2 : defined "IRONLINK_SECRETS_H" env = false := hg
  simp only [headers, List.mem_cons, List.mem_singleton, List.not_mem_nil, or_false] at hh
  rcases hh with rfl | rfl
  · rw [preprocess_eq_directives, directives_example, definesOf_example]
    simp [step, PPState.active, hg2]
  · rw [preprocess_eq_directives, directives_real, definesOf_real]
    simp [step, PPState.active, hg2]

theorem guard_defined_after (h : List String) (hh : h ∈ headers) (env : Env) :
    defined guardSymbol (preprocess h env) = true := by
  cases hg : defined guardSymbol env with
  | true => rw [preprocess_guarded h hh env hg]; exact hg
  | false =>
    rw [preprocess_fresh h hh env hg]
    simp only [headers, List.mem_cons, List.mem_singleton, List.not_mem_nil, or_false] at hh
    rcases hh with rfl | rfl
    · rw [definesOf_example]; simp [defined, guardSymbol]
    · rw [definesOf_real]; simp [defined, guardSymbol]

theorem definitionsOf_undefined (n : String) (env : Env) (hn : defined n env = false) :
    definitionsOf n env = [] := by
  unfold definitionsOf
  unfold defined at hn
  rw [List.filter_eq_nil_iff]
  intro d hd
  rw [List.any_eq_false] at hn
  simpa using hn d hd


/-- C9: both headers have the include guard `IRONLINK_SECRETS_H`: each opens
with `#ifndef` and `#define` of that macro and ends with the matching `#endif`,
its directives in between are exactly its constant definitions, each of the
nine constants is defined inside the guarded region, and no `#define` stands
outside it. -/
theorem same_include_guard :
    ∀ h ∈ headers,
      includeGuard h = some guardSymbol ∧
      directives h =
        Line.ifndef guardSymbol :: Line.define guardSymbol "" ::
          ((constants h).map (fun d => Line.define d.1 d.2) ++ [Line.endif]) ∧
      (∀ n ∈ configSymbols, (n, [guardSymbol]) ∈ definesWithContext [] (parse h)) ∧
      (∀ d ∈ definesWithContext [] (parse h), d.2 = [guardSymbol]) := by
  decide

theorem same_include_guard_witness :
    includeGuard secrets_h = some guardSymbol ∧
    directives secrets_h =
      Line.ifndef guardSymbol :: Line.define guardSymbol "" ::
        ((constants secrets_h).map (fun d => Line.define d.1 d.2) ++ [Line.endif]) ∧
    (∀ n ∈ configSymbols, (n, [guardSymbol]) ∈ definesWithContext [] (parse secrets_h)) ∧
    (∀ d ∈ definesWithContext [] (parse secrets_h), d.2 = [guardSymbol]) :=
  same_include_guard secrets_h (by decide)

/-- C10: processing either header where `IRONLINK_SECRETS_H` is already
defined leaves the environment unchanged; including a header twice equals
including it once; including the two headers one after the other, in either
order, equals including the first alone; and where the guard and a constant
are not yet defined, the result holds exactly one definition of that constant,
with the replacement text of the header included first. -/
theorem inclusion_idempotent_first_wins :
    (∀ h ∈ headers, ∀ env : Env,
      defined guardSymbol env = true → preprocess h env = env) ∧
    (∀ h ∈ headers, ∀ env : Env,
      preprocess h (preprocess h env) = preprocess h env) ∧
    (∀ a ∈ headers, ∀ b ∈ headers, ∀ env : Env,
      preprocess b (preprocess a env) = preprocess a env) ∧
    (∀ a ∈ headers, ∀ b ∈ headers, ∀ env : Env,
      defined guardSymbol env = false →
      ∀ n ∈ configSymbols, defined n env = false →
        ∃ v, bodyOf a n = some v ∧
          definitionsOf n (preprocess b (preprocess a env)) = [(n, v)]) := by
  have second : ∀ a ∈ headers, ∀ b ∈ headers, ∀ env : Env,
      preprocess b (preprocess a env) = preprocess a env :=
    fun a ha b hb env => preprocess_guarded b hb _ (guard_defined_after a ha env)
  have once : ∀ a ∈ headers, ∀ n ∈ configSymbols,
      (bodyOf a n).any
        (fun v => decide (definitionsOf n (definesOf (parse a)) = [(n, v)])) = true := by
    decide
  refine ⟨preprocess_guarded, fun h hh env => second h hh h hh env, second, ?_⟩
  intro a ha b hb env hg n hn hnd
  obtain ⟨v, hv, hp⟩ := any_some _ _ (once a ha n hn)
  refine ⟨v, hv, ?_⟩
  rw [second a ha b hb env, preprocess_fresh a ha env hg]
  have hsplit : definitionsOf n (env ++ definesOf (parse a)) =
      definitionsOf n env ++ definitionsOf n (definesOf (parse a)) := by
    simp [definitionsOf]
  rw [hsplit, definitionsOf_undefined n env hnd]
  simpa using hp

theorem inclusion_idempotent_first_wins_witness :
    preprocess secrets_example_h [(guardSymbol, "")] = [(guardSymbol, "")] ∧
    preprocess secrets_h (preprocess secrets_h []) = preprocess secrets_h [] ∧
    preprocess secrets_h (preprocess secrets_example_h []) = preprocess secrets_example_h [] ∧
    preprocess secrets_example_h (preprocess secrets_h []) = preprocess secrets_h [] ∧
    (∃ v, bodyOf secrets_example_h "WIFI_SSID" = some v ∧
      definitionsOf "WIFI_SSID" (preprocess secrets_h (preprocess secrets_example_h [])) =
        [("WIFI_SSID", v)]) ∧
    (∃ v, bodyOf secrets_h "WIFI_SSID" = some v ∧
      definitionsOf "WIFI_SSID" (preprocess secrets_example_h (preprocess secrets_h [])) =
        [("WIFI_SSID", v)]) :=
  ⟨inclusion_idempotent_first_wins.1 secrets_example_h (by decide) _ (by decide),
   inclusion_idempotent_first_wins.2.1 secrets_h (by decide) [],
   inclusion_idempotent_first_wins.2.2.1 secrets_example_h (by decide) secrets_h (by decide) [],
   inclusion_idempotent_first_wins.2.2.1 secrets_h (by decide) secrets_example_h (by decide) [],
   inclusion_idempotent_first_wins.2.2.2 secrets_example_h (by decide) secrets_h (by decide) []
     (by decide) "WIFI_SSID" (by decide) (by decide),
   inclusion_idempotent_first_wins.2.2.2 secrets_h (by decide) secrets_example_h (by decide) []
     (by decide) "WIFI_SSID" (by decide) (by decide)⟩

/-! ## Placeholder values -/

end Ironlink
